import Mathlib

/-!
Verification of the deterministic turn-simulation core of the
line-tactics-warfare repository: the order model (src/game/Order.ts), the
per-tick regiment update (src/game/Regiment.ts), the fixed-length turn
simulator (src/game/TurnSimulator.ts) and the PLANNING/SIMULATION phase
controller (src/game/GameState.ts).

Modelling choices:
- grid positions are rationals (JavaScript numbers used only through +, -, *,
  /, min on values produced from the inputs; every claim is about exact
  values, which the source obtains by snapping);
- Math.atan2 and the degree conversion are modelled over the reals with the
  standard mathematical atan2;
- a mutating method becomes a function from the receiver state to the updated
  state; a method that also fires listener callbacks returns the list of
  events delivered to listeners, in delivery order.
-/

namespace LineTactics

/-- Facing direction of a regiment (src/game/Regiment.ts, type Direction). -/
inductive Direction
  | NORTH
  | SOUTH
  | EAST
  | WEST
  | NORTHEAST
  | NORTHWEST
  | SOUTHEAST
  | SOUTHWEST
deriving DecidableEq, Repr

/-- The four cardinal values a RotateOrder may carry
(src/game/Order.ts, RotateOrder.direction). -/
inductive CardinalDirection
  | NORTH
  | SOUTH
  | EAST
  | WEST
deriving DecidableEq, Repr

/-- Inclusion of the RotateOrder payload values into the eight facings. -/
def CardinalDirection.toDirection : CardinalDirection → Direction
  | .NORTH => Direction.NORTH
  | .SOUTH => Direction.SOUTH
  | .EAST => Direction.EAST
  | .WEST => Direction.WEST

/-- Tagged union of regiment orders (src/game/Order.ts):
MoveOrder with a target grid position, HoldOrder, RotateOrder. -/
inductive Order
  | move (targetX targetY : ℚ)
  | hold
  | rotate (direction : CardinalDirection)
deriving DecidableEq, Repr

/-- Math.atan2, modelled over the reals: the angle of the vector (x, y)
in (-pi, pi], with atan2 0 0 = 0. -/
noncomputable def atan2 (y x : ℝ) : ℝ :=
  if 0 < x then Real.arctan (y / x)
  else if x < 0 ∧ 0 ≤ y then Real.arctan (y / x) + Real.pi
  else if x < 0 then Real.arctan (y / x) - Real.pi
  else if 0 < y then Real.pi / 2
  else if y < 0 then -(Real.pi / 2)
  else 0

/-- Angle of the delta vector in degrees, normalized to [0, 360), as computed
by calculateDirectionFromDelta (src/game/Regiment.ts lines 23-28):
atan2, radians to degrees, add 360 when negative. -/
noncomputable def degreesFromDelta (dx dy : ℚ) : ℝ :=
  let angle := atan2 (dy : ℝ) (dx : ℝ)
  let degrees := angle * (180 / Real.pi)
  if degrees < 0 then degrees + 360 else degrees

/-- The 8-sector classification of a normalized angle in degrees
(src/game/Regiment.ts lines 30-48). -/
noncomputable def directionFromDegrees (degrees : ℝ) : Direction :=
  if 337.5 ≤ degrees ∨ degrees < 22.5 then Direction.EAST
  else if 22.5 ≤ degrees ∧ degrees < 67.5 then Direction.SOUTHEAST
  else if 67.5 ≤ degrees ∧ degrees < 112.5 then Direction.SOUTH
  else if 112.5 ≤ degrees ∧ degrees < 157.5 then Direction.SOUTHWEST
  else if 157.5 ≤ degrees ∧ degrees < 202.5 then Direction.WEST
  else if 202.5 ≤ degrees ∧ degrees < 247.5 then Direction.NORTHWEST
  else if 247.5 ≤ degrees ∧ degrees < 292.5 then Direction.NORTH
  else Direction.NORTHEAST

/-- calculateDirectionFromDelta (src/game/Regiment.ts lines 17-49):
NORTH for zero movement, otherwise the 8-way sector classification of
atan2 (dy, dx) converted to degrees in [0, 360). -/
noncomputable def calculateDirectionFromDelta (dx dy : ℚ) : Direction :=
  if dx = 0 ∧ dy = 0 then Direction.NORTH
  else directionFromDegrees (degreesFromDelta dx dy)

namespace TurnSimulator

/-- TurnSimulator.TICKS_PER_TURN (src/game/TurnSimulator.ts line 13). -/
def TICKS_PER_TURN : ℕ := 100

end TurnSimulator

/-- Regiment state (src/game/Regiment.ts lines 59-80): identity, grid
position, facing, optional current order, and the transient movement
bookkeeping (recorded start position, elapsed-tick counter). -/
structure Regiment where
  id : String
  x : ℚ
  y : ℚ
  direction : Direction
  order : Option Order
  moveStartX : Option ℚ
  moveStartY : Option ℚ
  moveTickCount : ℕ
deriving DecidableEq, Repr

namespace Regiment

/-- The constructor (src/game/Regiment.ts lines 71-80). The source defaults
the direction parameter to NORTH; the default is left to call sites here. -/
def create (id : String) (x y : ℚ) (direction : Direction) : Regiment :=
  { id := id, x := x, y := y, direction := direction, order := none,
    moveStartX := none, moveStartY := none, moveTickCount := 0 }

/-- Regiment.setPosition. -/
def setPosition (r : Regiment) (x y : ℚ) : Regiment :=
  { r with x := x, y := y }

/-- Regiment.setDirection. -/
def setDirection (r : Regiment) (direction : Direction) : Regiment :=
  { r with direction := direction }

/-- Regiment.setOrder (src/game/Regiment.ts lines 135-141): replaces the
order and resets the movement bookkeeping. -/
def setOrder (r : Regiment) (order : Option Order) : Regiment :=
  { r with
    order := order, moveStartX := none, moveStartY := none,
    moveTickCount := 0 }

/-- The tail of executeMoveOrder (src/game/Regiment.ts lines 192-218), run
once the movement bookkeeping is initialized with start position (sx, sy):
increment the elapsed-tick counter, interpolate linearly by
progress = min (elapsed / TICKS_PER_TURN) 1, and when progress reaches 1
snap exactly to the target and clear the order. -/
def moveStep (r : Regiment) (sx sy targetX targetY : ℚ) : Regiment :=
  let cnt := r.moveTickCount + 1
  let deltaX := targetX - sx
  let deltaY := targetY - sy
  let progress : ℚ := min ((cnt : ℚ) / (TurnSimulator.TICKS_PER_TURN : ℚ)) 1
  let newX := sx + deltaX * progress
  let newY := sy + deltaY * progress
  let r2 : Regiment := { r with moveTickCount := cnt, x := newX, y := newY }
  if 1 ≤ progress then { r2 with x := targetX, y := targetY, order := none }
  else r2

/-- executeMoveOrder (src/game/Regiment.ts lines 173-218). On the first tick
of the order (no recorded start) the current position is recorded as the
interpolation start; a zero-distance move clears the order immediately;
otherwise the facing is set from the start-to-target delta and the
interpolation step runs. On later ticks only the interpolation step runs. -/
noncomputable def executeMoveOrder (r : Regiment) (targetX targetY : ℚ) :
    Regiment :=
  match r.moveStartX, r.moveStartY with
  | some sx, some sy => r.moveStep sx sy targetX targetY
  | _, _ =>
    let sx := r.x
    let sy := r.y
    if sx = targetX ∧ sy = targetY then
      { r with
        moveStartX := some sx, moveStartY := some sy,
        moveTickCount := 0, order := none }
    else
      let dir := calculateDirectionFromDelta (targetX - sx) (targetY - sy)
      moveStep
        { r with
          moveStartX := some sx, moveStartY := some sy,
          moveTickCount := 0, direction := dir } sx sy targetX targetY

/-- Regiment.updateTick (src/game/Regiment.ts lines 147-165): execute the
current order if any; a ROTATE order is simply cleared (its direction was
already applied when the order was created); HOLD does nothing. -/
noncomputable def updateTick (r : Regiment) : Regiment :=
  match r.order with
  | none => r
  | some (Order.move targetX targetY) => r.executeMoveOrder targetX targetY
  | some (Order.rotate _) => { r with order := none }
  | some Order.hold => r

end Regiment

/-- TurnSimulator state (src/game/TurnSimulator.ts lines 12-20): the current
tick counter and the regiments being simulated. -/
structure TurnSimulator where
  currentTick : ℕ
  regiments : List Regiment
deriving Repr

namespace TurnSimulator

/-- The constructor (src/game/TurnSimulator.ts lines 17-20). -/
def create (regiments : List Regiment) : TurnSimulator :=
  { currentTick := 0, regiments := regiments }

/-- TurnSimulator.setRegiments. -/
def setRegiments (s : TurnSimulator) (regiments : List Regiment) :
    TurnSimulator :=
  { s with regiments := regiments }

/-- TurnSimulator.isTurnComplete: currentTick >= TICKS_PER_TURN. -/
def isTurnComplete (s : TurnSimulator) : Bool :=
  decide (TICKS_PER_TURN ≤ s.currentTick)

/-- TurnSimulator.reset: currentTick back to 0. -/
def reset (s : TurnSimulator) : TurnSimulator :=
  { s with currentTick := 0 }

/-- TurnSimulator.simulateTick (src/game/TurnSimulator.ts lines 69-82):
when the turn is already complete, do nothing and report false; otherwise
update every regiment for this tick, increment the counter, and report
whether the turn is still in progress. -/
noncomputable def simulateTick (s : TurnSimulator) : TurnSimulator × Bool :=
  if s.isTurnComplete then (s, false)
  else
    let s2 : TurnSimulator :=
      { currentTick := s.currentTick + 1,
        regiments := s.regiments.map Regiment.updateTick }
    (s2, !s2.isTurnComplete)

/-- The while loop of simulateFullTurn (src/game/TurnSimulator.ts lines
91-95): repeatedly simulateTick, incrementing ticksExecuted after each call
that reports the turn as still in progress, until a call reports completion. -/
noncomputable def simulateLoop (s : TurnSimulator) (ticksExecuted : ℕ) :
    TurnSimulator × ℕ :=
  if h : (s.simulateTick).2 = true then
    simulateLoop (s.simulateTick).1 (ticksExecuted + 1)
  else ((s.simulateTick).1, ticksExecuted)
termination_by TICKS_PER_TURN - s.currentTick
decreasing_by
  simp only [simulateTick] at h ⊢
  by_cases hc : s.isTurnComplete = true
  · simp [hc] at h
  · simp only [if_neg hc]
    simp only [isTurnComplete, decide_eq_true_eq] at hc
    omega

/-- TurnSimulator.simulateFullTurn (src/game/TurnSimulator.ts lines 89-98):
reset, then run the tick loop; the second component is the ticksExecuted
value the method returns. -/
noncomputable def simulateFullTurn (s : TurnSimulator) : TurnSimulator × ℕ :=
  simulateLoop s.reset 0

end TurnSimulator

/-- Game phase (src/game/GameState.ts, type GamePhase). -/
inductive GamePhase
  | PLANNING
  | SIMULATION
deriving DecidableEq, Repr

/-- A notification delivered to a registered listener: phase-change
listeners receive the new phase, selection-change listeners the new
selected regiment id (src/game/GameState.ts lines 9-10). -/
inductive GameEvent
  | phaseChange (phase : GamePhase)
  | selectionChange (regimentId : Option String)
deriving DecidableEq, Repr

/-- Modelled from the spec: Unit.ts is imported by GameState.ts but is not
among the provided sources. The spec treats the unit list only as stored
entity data read by excluded rendering collaborators (spec sections 2 and 6);
a unit is identified by a stable string id. Only its presence in the state
matters for the claims below. -/
structure GameUnit where
  id : String
deriving DecidableEq, Repr

/-- GameState (src/game/GameState.ts lines 20-38): phase, the controller's
own tick counter, the unit list, and the selection sub-state. The game map
and the listener sets are omitted: no claim reads the map, and listener
delivery is modelled by the event list each method emits. -/
structure GameState where
  phase : GamePhase
  tick : ℕ
  units : List GameUnit
  selectedRegimentId : Option String
deriving DecidableEq, Repr

namespace GameState

/-- The constructor (src/game/GameState.ts lines 29-38). -/
def createInitial : GameState :=
  { phase := GamePhase.PLANNING, tick := 0, units := [],
    selectedRegimentId := none }

/-- GameState.addUnit. -/
def addUnit (s : GameState) (u : GameUnit) : GameState :=
  { s with units := s.units ++ [u] }

/-- GameState.startTurn (src/game/GameState.ts lines 95-101): only from
PLANNING; moves to SIMULATION, resets the tick counter, and notifies the
phase listeners with the new phase. Otherwise nothing happens. -/
def startTurn (s : GameState) : GameState × List GameEvent :=
  if s.phase = GamePhase.PLANNING then
    ({ s with phase := GamePhase.SIMULATION, tick := 0 },
     [GameEvent.phaseChange GamePhase.SIMULATION])
  else (s, [])

/-- GameState.endTurn (src/game/GameState.ts lines 106-112): only from
SIMULATION; moves to PLANNING, resets the tick counter, and notifies the
phase listeners with the new phase. Otherwise nothing happens. -/
def endTurn (s : GameState) : GameState × List GameEvent :=
  if s.phase = GamePhase.SIMULATION then
    ({ s with phase := GamePhase.PLANNING, tick := 0 },
     [GameEvent.phaseChange GamePhase.PLANNING])
  else (s, [])

/-- GameState.setSelectedRegimentId (src/game/GameState.ts lines 126-131):
only while PLANNING and only when the value actually changes; then the field
is updated and the selection listeners are notified with the new value. -/
def setSelectedRegimentId (s : GameState) (regimentId : Option String) :
    GameState × List GameEvent :=
  if s.phase = GamePhase.PLANNING ∧ s.selectedRegimentId ≠ regimentId then
    ({ s with selectedRegimentId := regimentId },
     [GameEvent.selectionChange regimentId])
  else (s, [])

/-- GameState.advanceTick (src/game/GameState.ts lines 137-141). -/
def advanceTick (s : GameState) : GameState :=
  if s.phase = GamePhase.SIMULATION then { s with tick := s.tick + 1 } else s

end GameState

/-- A state-mutating TurnSimulator operation a driver may invoke after
construction: reset, simulateTick, simulateFullTurn, or setRegiments. -/
inductive SimOp
  | reset
  | simTick
  | simFullTurn
  | setRegiments (regiments : List Regiment)

/-- Effect of one TurnSimulator operation on the simulator state. -/
noncomputable def applyOp (s : TurnSimulator) : SimOp → TurnSimulator
  | SimOp.reset => s.reset
  | SimOp.simTick => (s.simulateTick).1
  | SimOp.simFullTurn => (s.simulateFullTurn).1
  | SimOp.setRegiments rs => s.setRegiments rs

/-- Effect of a sequence of TurnSimulator operations, first to last. -/
noncomputable def applyOps (s : TurnSimulator) (ops : List SimOp) :
    TurnSimulator :=
  ops.foldl applyOp s

/-- Euclidean distance from a regiment's position to the grid point
(targetX, targetY). -/
noncomputable def distToTarget (r : Regiment) (targetX targetY : ℚ) : ℝ :=
  Real.sqrt (((r.x - targetX : ℚ) : ℝ) ^ 2 + ((r.y - targetY : ℚ) : ℝ) ^ 2)

/-- The regiment state reached after k per-tick updates of a Move order
toward (targetX, targetY) that started from r's position, while the move is
still in progress (the lemmas below establish this for 1 ≤ k ≤ 99). -/
noncomputable def moveInProgressState (r : Regiment) (targetX targetY : ℚ)
    (k : ℕ) : Regiment :=
  { id := r.id,
    x := r.x + (targetX - r.x) *
      ((k : ℚ) / (TurnSimulator.TICKS_PER_TURN : ℚ)),
    y := r.y + (targetY - r.y) *
      ((k : ℚ) / (TurnSimulator.TICKS_PER_TURN : ℚ)),
    direction := calculateDirectionFromDelta (targetX - r.x) (targetY - r.y),
    order := some (Order.move targetX targetY),
    moveStartX := some r.x, moveStartY := some r.y, moveTickCount := k }

/-- The regiment state reached by the snapping tick of such a Move order:
position exactly at the target, order cleared. -/
noncomputable def moveFinishedState (r : Regiment) (targetX targetY : ℚ) :
    Regiment :=
  { id := r.id, x := targetX, y := targetY,
    direction := calculateDirectionFromDelta (targetX - r.x) (targetY - r.y),
    order := none,
    moveStartX := some r.x, moveStartY := some r.y,
    moveTickCount := TurnSimulator.TICKS_PER_TURN }

/-! ## Theorems: turn simulator -/

namespace TurnSimulator

theorem isTurnComplete_iff {s : TurnSimulator} :
    s.isTurnComplete = true ↔ TICKS_PER_TURN ≤ s.currentTick := by
  simp [isTurnComplete]

theorem simulateTick_of_complete {s : TurnSimulator}
    (h : s.isTurnComplete = true) : s.simulateTick = (s, false) := by
  simp [simulateTick, h]

theorem simulateTick_of_not_complete {s : TurnSimulator}
    (h : ¬ s.isTurnComplete = true) :
    s.simulateTick =
      ({ currentTick := s.currentTick + 1,
         regiments := s.regiments.map Regiment.updateTick },
       !decide (TICKS_PER_TURN ≤ s.currentTick + 1)) := by
  simp only [simulateTick]
  rw [if_neg h]
  rfl

theorem map_updateTick_iterate (n : ℕ) (rs : List Regiment) :
    (List.map Regiment.updateTick)^[n] rs =
      rs.map (Regiment.updateTick^[n]) := by
  induction n generalizing rs with
  | zero => simp
  | succ n ih =>
    rw [Function.iterate_succ_apply, ih, List.map_map,
      ← Function.iterate_succ]

/-- Characterization of the simulateFullTurn while loop: started with n ≥ 1
ticks left in the budget, it runs all n remaining ticks but counts only
n - 1 of them, because the final call to simulateTick returns false. -/
theorem simulateLoop_spec (n : ℕ) : ∀ (s : TurnSimulator) (acc : ℕ),
    1 ≤ n → s.currentTick + n = TICKS_PER_TURN →
    simulateLoop s acc =
      ({ currentTick := TICKS_PER_TURN,
         regiments := (List.map Regiment.updateTick)^[n] s.regiments },
       acc + (n - 1)) := by
  induction n with
  | zero => intro s acc hn hct; omega
  | succ n ih =>
    intro s acc hn hct
    have hnc : ¬ s.isTurnComplete = true := by
      rw [isTurnComplete_iff]; omega
    have hstep := simulateTick_of_not_complete hnc
    rw [simulateLoop]
    by_cases hzero : n = 0
    · subst hzero
      have hsnd : (s.simulateTick).2 = false := by
        rw [hstep]
        have hle : TICKS_PER_TURN ≤ s.currentTick + 1 := by omega
        simp [hle]
      rw [dif_neg (by simp [hsnd])]
      rw [hstep, show s.currentTick + 1 = TICKS_PER_TURN from by omega]
      simp
    · have hsnd : (s.simulateTick).2 = true := by
        rw [hstep]
        have hlt : ¬ TICKS_PER_TURN ≤ s.currentTick + 1 := by omega
        simp [hlt]
      rw [dif_pos hsnd, hstep]
      rw [ih _ (acc + 1) (by omega) (by simp; omega)]
      rw [← Function.iterate_succ_apply]
      rw [show acc + 1 + (n - 1) = acc + (n + 1 - 1) from by omega]

/-- Full characterization of simulateFullTurn: the final state has
currentTick = TICKS_PER_TURN and every regiment updated exactly
TICKS_PER_TURN times, while the returned count is TICKS_PER_TURN - 1. -/
theorem simulateFullTurn_eq (s : TurnSimulator) :
    s.simulateFullTurn =
      ({ currentTick := TICKS_PER_TURN,
         regiments :=
           s.regiments.map (Regiment.updateTick^[TICKS_PER_TURN]) },
       TICKS_PER_TURN - 1) := by
  unfold simulateFullTurn
  rw [simulateLoop_spec TICKS_PER_TURN s.reset 0 (by decide)
    (by simp [reset])]
  rw [map_updateTick_iterate]
  rfl

end TurnSimulator

/-- C1: REFUTED by the code as stated (code bug). For every TurnSimulator,
simulateFullTurn does execute the whole turn — the final state has
currentTick = ticksPerTurn = 100 and every regiment has received exactly 100
updateTick calls — but the value it returns is 99, not ticksPerTurn = 100:
ticksExecuted is incremented only for simulateTick calls that return true,
and the call that executes the 100th tick returns false, so the last
executed tick is never counted. This contradicts the method's own
documentation ("Returns the number of ticks that were executed"). -/
theorem simulateFullTurn_returns_99_not_100 (s : TurnSimulator) :
    s.simulateFullTurn.2 = 99 ∧ s.simulateFullTurn.2 ≠ 100 ∧
      s.simulateFullTurn.1.currentTick = TurnSimulator.TICKS_PER_TURN ∧
      s.simulateFullTurn.1.regiments =
        s.regiments.map
          (Regiment.updateTick^[TurnSimulator.TICKS_PER_TURN]) := by
  rw [TurnSimulator.simulateFullTurn_eq]
  refine ⟨rfl, by norm_num [TurnSimulator.TICKS_PER_TURN], rfl, rfl⟩

/-- C10: confirmed. For every TurnSimulator whose turn is complete (tick
counter at or past the budget), simulateTick is a complete no-op that
returns false: the state comes back unchanged, so no regiment receives an
updateTick call and the tick counter does not move. -/
theorem simulateTick_noop_when_complete (s : TurnSimulator)
    (h : TurnSimulator.TICKS_PER_TURN ≤ s.currentTick) :
    s.simulateTick = (s, false) :=
  TurnSimulator.simulateTick_of_complete
    (TurnSimulator.isTurnComplete_iff.mpr h)

/-- Witness for C10 at a concrete completed simulator: tick counter 100,
no regiments. -/
theorem simulateTick_noop_when_complete_witness :
    TurnSimulator.TICKS_PER_TURN ≤ (TurnSimulator.mk 100 []).currentTick ∧
      (TurnSimulator.mk 100 []).simulateTick = (TurnSimulator.mk 100 [], false) :=
  ⟨by decide, simulateTick_noop_when_complete (TurnSimulator.mk 100 []) (by decide)⟩

theorem applyOp_tick_le (s : TurnSimulator) (op : SimOp)
    (h : s.currentTick ≤ TurnSimulator.TICKS_PER_TURN) :
    (applyOp s op).currentTick ≤ TurnSimulator.TICKS_PER_TURN := by
  cases op with
  | reset => simp [applyOp, TurnSimulator.reset]
  | simTick =>
    by_cases hc : s.isTurnComplete = true
    · simp [applyOp, TurnSimulator.simulateTick_of_complete hc, h]
    · simp only [applyOp]
      rw [TurnSimulator.simulateTick_of_not_complete hc]
      rw [TurnSimulator.isTurnComplete_iff] at hc
      simp only []
      omega
  | simFullTurn =>
    simp only [applyOp]
    rw [TurnSimulator.simulateFullTurn_eq]
  | setRegiments rs => simpa [applyOp, TurnSimulator.setRegiments] using h

theorem applyOps_tick_le (ops : List SimOp) : ∀ s : TurnSimulator,
    s.currentTick ≤ TurnSimulator.TICKS_PER_TURN →
    (applyOps s ops).currentTick ≤ TurnSimulator.TICKS_PER_TURN := by
  induction ops with
  | nil => intro s h; simpa [applyOps] using h
  | cons op ops ih =>
    intro s h
    have := ih (applyOp s op) (applyOp_tick_le s op h)
    simpa [applyOps, List.foldl_cons] using this

/-- C5: confirmed. Starting from a freshly constructed TurnSimulator over
any regiment collection, after any sequence of reset, simulateTick,
simulateFullTurn and setRegiments operations the current-tick counter stays
in [0, TICKS_PER_TURN] = [0, 100], and isTurnComplete returns true exactly
when the counter has reached TICKS_PER_TURN. -/
theorem tick_counter_invariant (rs : List Regiment) (ops : List SimOp) :
    (applyOps (TurnSimulator.create rs) ops).currentTick ≤
        TurnSimulator.TICKS_PER_TURN ∧
      ((applyOps (TurnSimulator.create rs) ops).isTurnComplete = true ↔
        (applyOps (TurnSimulator.create rs) ops).currentTick =
          TurnSimulator.TICKS_PER_TURN) := by
  have hb := applyOps_tick_le ops (TurnSimulator.create rs)
    (by simp [TurnSimulator.create])
  refine ⟨hb, ?_⟩
  rw [TurnSimulator.isTurnComplete_iff]
  omega

/-! ## Theorems: game phase controller -/

/-- C6: confirmed. The phase state machine is total — every method is a
(total) function callable in every state — with exactly two state-changing
transitions: startTurn changes the state only from PLANNING (to SIMULATION,
tick counter reset to 0, one phase-change notification) and is a silent
no-op when already in SIMULATION; endTurn changes the state only from
SIMULATION and is a silent no-op in PLANNING. Consequently calling
startTurn twice in a row changes the phase exactly once: the second call is
always a no-op. -/
theorem phase_machine_total (s : GameState) :
    (s.phase = GamePhase.PLANNING →
      s.startTurn = ({ s with phase := GamePhase.SIMULATION, tick := 0 },
        [GameEvent.phaseChange GamePhase.SIMULATION])) ∧
    (s.phase = GamePhase.SIMULATION → s.startTurn = (s, [])) ∧
    (s.phase = GamePhase.SIMULATION →
      s.endTurn = ({ s with phase := GamePhase.PLANNING, tick := 0 },
        [GameEvent.phaseChange GamePhase.PLANNING])) ∧
    (s.phase = GamePhase.PLANNING → s.endTurn = (s, [])) ∧
    s.startTurn.1.startTurn = (s.startTurn.1, []) := by
  cases hp : s.phase <;>
    simp [GameState.startTurn, GameState.endTurn, hp]

/-- Witness for C6 at the freshly constructed GameState (phase PLANNING):
the first startTurn moves to SIMULATION and notifies once; the second
startTurn in a row is a no-op. -/
theorem phase_machine_total_witness :
    GameState.createInitial.startTurn =
      ({ GameState.createInitial with
         phase := GamePhase.SIMULATION, tick := 0 },
       [GameEvent.phaseChange GamePhase.SIMULATION]) ∧
    GameState.createInitial.startTurn.1.startTurn =
      (GameState.createInitial.startTurn.1, []) :=
  ⟨(phase_machine_total GameState.createInitial).1 rfl,
   (phase_machine_total GameState.createInitial).2.2.2.2⟩

/-- C9: confirmed. setSelectedRegimentId has no observable effect — the
state is returned unchanged and no notification is emitted — when the phase
is SIMULATION or when the new id equals the currently selected id; when the
phase is PLANNING and the id differs, the field is updated and exactly one
selection-change notification carrying the new value is delivered. -/
theorem selection_gating (s : GameState) (rid : Option String) :
    (s.phase = GamePhase.SIMULATION →
      s.setSelectedRegimentId rid = (s, [])) ∧
    (s.selectedRegimentId = rid →
      s.setSelectedRegimentId rid = (s, [])) ∧
    (s.phase = GamePhase.PLANNING → s.selectedRegimentId ≠ rid →
      s.setSelectedRegimentId rid =
        ({ s with selectedRegimentId := rid },
         [GameEvent.selectionChange rid])) := by
  refine ⟨?_, ?_, ?_⟩
  · intro hp
    unfold GameState.setSelectedRegimentId
    rw [if_neg (by simp [hp])]
  · intro he
    unfold GameState.setSelectedRegimentId
    rw [if_neg (by simp [he])]
  · intro hp hne
    unfold GameState.setSelectedRegimentId
    rw [if_pos ⟨hp, hne⟩]

/-- Witness for C9 at concrete states: a no-op on the fresh state when the
id is unchanged, a no-op during SIMULATION, and an update with one
notification during PLANNING with a new id. -/
theorem selection_gating_witness :
    GameState.createInitial.setSelectedRegimentId none =
      (GameState.createInitial, []) ∧
    ({ GameState.createInitial with
       phase := GamePhase.SIMULATION } : GameState).setSelectedRegimentId
        (some "a") =
      ({ GameState.createInitial with phase := GamePhase.SIMULATION }, []) ∧
    GameState.createInitial.setSelectedRegimentId (some "a") =
      ({ GameState.createInitial with selectedRegimentId := some "a" },
       [GameEvent.selectionChange (some "a")]) :=
  ⟨(selection_gating GameState.createInitial none).2.1 rfl,
   (selection_gating _ (some "a")).1 rfl,
   (selection_gating GameState.createInitial (some "a")).2.2 rfl
     (by simp [GameState.createInitial])⟩

/-! ## Theorems: per-tick regiment update -/

namespace Regiment

theorem updateTick_of_none {r : Regiment} (h : r.order = none) :
    r.updateTick = r := by
  simp [updateTick, h]

theorem updateTick_of_hold {r : Regiment} (h : r.order = some Order.hold) :
    r.updateTick = r := by
  simp [updateTick, h]

theorem updateTick_of_rotate {r : Regiment} (d : CardinalDirection)
    (h : r.order = some (Order.rotate d)) :
    r.updateTick = { r with order := none } := by
  simp [updateTick, h]

theorem updateTick_iterate_of_none {r : Regiment} (h : r.order = none)
    (n : ℕ) : updateTick^[n] r = r := by
  induction n with
  | zero => rfl
  | succ n ih => rw [Function.iterate_succ_apply, updateTick_of_none h, ih]

theorem updateTick_iterate_of_hold {r : Regiment}
    (h : r.order = some Order.hold) (n : ℕ) : updateTick^[n] r = r := by
  induction n with
  | zero => rfl
  | succ n ih => rw [Function.iterate_succ_apply, updateTick_of_hold h, ih]

end Regiment

/-- C7: confirmed. For every Regiment, after setOrder(Hold) any number n of
per-tick updates leaves the whole state unchanged — in particular position
and facing are those the regiment had before, and the order is still Hold —
and with no order set, n updates leave the regiment identical, so ticking
n and n + 1 times produce identical states. -/
theorem hold_and_no_order_ticks (r : Regiment) (n : ℕ) :
    Regiment.updateTick^[n] (r.setOrder (some Order.hold)) =
        r.setOrder (some Order.hold) ∧
      (Regiment.updateTick^[n] (r.setOrder (some Order.hold))).x = r.x ∧
      (Regiment.updateTick^[n] (r.setOrder (some Order.hold))).y = r.y ∧
      (Regiment.updateTick^[n] (r.setOrder (some Order.hold))).direction =
        r.direction ∧
      (Regiment.updateTick^[n] (r.setOrder (some Order.hold))).order =
        some Order.hold ∧
      (r.order = none →
        Regiment.updateTick^[n] r = r ∧
          Regiment.updateTick^[n + 1] r = Regiment.updateTick^[n] r) := by
  have hh : Regiment.updateTick^[n] (r.setOrder (some Order.hold)) =
      r.setOrder (some Order.hold) :=
    Regiment.updateTick_iterate_of_hold rfl n
  rw [hh]
  refine ⟨rfl, rfl, rfl, rfl, rfl, ?_⟩
  intro h
  rw [Regiment.updateTick_iterate_of_none h n,
    Regiment.updateTick_iterate_of_none h (n + 1)]
  exact ⟨rfl, rfl⟩

/-- Witness for C7 at a concrete regiment at (1, 2) facing EAST with n = 5
ticks: holding leaves the state unchanged, and with no order 5 and 6 ticks
agree. -/
theorem hold_and_no_order_ticks_witness :
    Regiment.updateTick^[5]
        ((Regiment.create "w7" 1 2 Direction.EAST).setOrder
          (some Order.hold)) =
      (Regiment.create "w7" 1 2 Direction.EAST).setOrder (some Order.hold) ∧
    Regiment.updateTick^[5] (Regiment.create "w7" 1 2 Direction.EAST) =
      Regiment.create "w7" 1 2 Direction.EAST :=
  ⟨(hold_and_no_order_ticks (Regiment.create "w7" 1 2 Direction.EAST) 5).1,
   ((hold_and_no_order_ticks (Regiment.create "w7" 1 2 Direction.EAST) 5).2.2.2.2.2
     rfl).1⟩

/-- C3 counterexample: a Regiment facing NORTH whose Rotate{SOUTH} order was
assigned directly with setOrder (without the command flow's accompanying
setDirection call). The claim says the first per-tick update makes the
facing SOUTH and clears the order; in the code the update only clears the
order, leaving the facing NORTH. -/
theorem rotate_claim_counterexample :
    ¬ ((((Regiment.create "c3" 0 0 Direction.NORTH).setOrder
          (some (Order.rotate CardinalDirection.SOUTH))).updateTick.direction =
        CardinalDirection.SOUTH.toDirection ∧
       (((Regiment.create "c3" 0 0 Direction.NORTH).setOrder
          (some (Order.rotate CardinalDirection.SOUTH))).updateTick.order =
        none))) := by
  intro h
  have hd := h.1
  rw [Regiment.updateTick_of_rotate CardinalDirection.SOUTH rfl] at hd
  exact absurd hd (by decide)

/-- C3 (amended): confirmed. On the first per-tick update that observes a
Rotate order, the order becomes null, but the update itself leaves the
facing (and position) unchanged: the facing was already set to the ordered
direction at order-assignment time by the command flow, which calls
setDirection(direction) immediately before setOrder(Rotate{direction}).
Hence a regiment whose Rotate{d} order was issued through that flow faces d
after the first tick, with the order cleared — rotation is resolved
entirely by that first tick, not interpolated. -/
theorem rotate_resolved_on_first_tick (r : Regiment) (d : CardinalDirection)
    (h : r.order = some (Order.rotate d)) :
    r.updateTick.order = none ∧
    r.updateTick.direction = r.direction ∧
    r.updateTick.x = r.x ∧ r.updateTick.y = r.y ∧
    ((r.setDirection d.toDirection).setOrder
        (some (Order.rotate d))).updateTick.direction = d.toDirection ∧
    ((r.setDirection d.toDirection).setOrder
        (some (Order.rotate d))).updateTick.order = none := by
  have h1 := Regiment.updateTick_of_rotate d h
  have h2 := Regiment.updateTick_of_rotate d
    (show ((r.setDirection d.toDirection).setOrder
        (some (Order.rotate d))).order = some (Order.rotate d) from rfl)
  rw [h1, h2]
  exact ⟨rfl, rfl, rfl, rfl, rfl, rfl⟩

/-- Witness for C3 (amended) at a concrete regiment facing NORTH with a
Rotate{EAST} order: the first tick clears the order and leaves the facing
as it was. -/
theorem rotate_resolved_on_first_tick_witness :
    (((Regiment.create "w3" 0 0 Direction.NORTH).setOrder
        (some (Order.rotate CardinalDirection.EAST))).updateTick.order =
      none) ∧
    (((Regiment.create "w3" 0 0 Direction.NORTH).setOrder
        (some (Order.rotate CardinalDirection.EAST))).updateTick.direction =
      Direction.NORTH) :=
  ⟨(rotate_resolved_on_first_tick
      ((Regiment.create "w3" 0 0 Direction.NORTH).setOrder
        (some (Order.rotate CardinalDirection.EAST)))
      CardinalDirection.EAST rfl).1,
   (rotate_resolved_on_first_tick
      ((Regiment.create "w3" 0 0 Direction.NORTH).setOrder
        (some (Order.rotate CardinalDirection.EAST)))
      CardinalDirection.EAST rfl).2.1⟩

/-! ## Theorems: Move-order execution -/

theorem updateTick_move_first (r : Regiment) (tx ty : ℚ)
    (h : ¬(r.x = tx ∧ r.y = ty)) :
    (r.setOrder (some (Order.move tx ty))).updateTick =
      moveInProgressState r tx ty 1 := by
  show Regiment.executeMoveOrder (r.setOrder (some (Order.move tx ty))) tx ty
      = moveInProgressState r tx ty 1
  unfold Regiment.executeMoveOrder
  simp only [Regiment.setOrder]
  rw [if_neg h]
  unfold Regiment.moveStep
  rw [if_neg (by norm_num [TurnSimulator.TICKS_PER_TURN])]
  simp only [moveInProgressState, TurnSimulator.TICKS_PER_TURN]
  norm_num

theorem updateTick_move_progress (r : Regiment) (tx ty : ℚ) (k : ℕ)
    (hk : k + 1 < TurnSimulator.TICKS_PER_TURN) :
    (moveInProgressState r tx ty k).updateTick =
      moveInProgressState r tx ty (k + 1) := by
  have hk100 : k + 1 < 100 := hk
  have hq : ((k : ℚ) + 1) / 100 < 1 := by
    rw [div_lt_one (by norm_num)]
    exact_mod_cast hk100
  have hmin : min (((k : ℚ) + 1) / 100) 1 = ((k : ℚ) + 1) / 100 :=
    min_eq_left (le_of_lt hq)
  show Regiment.executeMoveOrder (moveInProgressState r tx ty k) tx ty
      = moveInProgressState r tx ty (k + 1)
  unfold Regiment.executeMoveOrder
  simp only [moveInProgressState]
  unfold Regiment.moveStep
  simp only [TurnSimulator.TICKS_PER_TURN, Nat.cast_add, Nat.cast_one,
    Nat.cast_ofNat]
  rw [hmin, if_neg (not_le.mpr hq)]

theorem updateTick_move_snap (r : Regiment) (tx ty : ℚ) :
    (moveInProgressState r tx ty 99).updateTick =
      moveFinishedState r tx ty := by
  show Regiment.executeMoveOrder (moveInProgressState r tx ty 99) tx ty
      = moveFinishedState r tx ty
  unfold Regiment.executeMoveOrder
  simp only [moveInProgressState]
  unfold Regiment.moveStep
  norm_num [TurnSimulator.TICKS_PER_TURN, moveFinishedState]

theorem move_iterate_char (r : Regiment) (tx ty : ℚ)
    (h : ¬(r.x = tx ∧ r.y = ty)) :
    ∀ k, 1 ≤ k → k < TurnSimulator.TICKS_PER_TURN →
    Regiment.updateTick^[k] (r.setOrder (some (Order.move tx ty))) =
      moveInProgressState r tx ty k := by
  intro k
  induction k with
  | zero => intro h1 _; omega
  | succ k ih =>
    intro _ hk2
    rcases Nat.eq_zero_or_pos k with hk0 | hk1
    · subst hk0
      rw [Function.iterate_one]
      exact updateTick_move_first r tx ty h
    · rw [Function.iterate_succ_apply', ih hk1 (by omega)]
      exact updateTick_move_progress r tx ty k (by omega)

theorem move_iterate_100 (r : Regiment) (tx ty : ℚ)
    (h : ¬(r.x = tx ∧ r.y = ty)) :
    Regiment.updateTick^[TurnSimulator.TICKS_PER_TURN]
      (r.setOrder (some (Order.move tx ty))) = moveFinishedState r tx ty := by
  have h99 := move_iterate_char r tx ty h 99 (by norm_num)
    (by norm_num [TurnSimulator.TICKS_PER_TURN])
  rw [show TurnSimulator.TICKS_PER_TURN = 99 + 1 from rfl,
    Function.iterate_succ_apply', h99]
  exact updateTick_move_snap r tx ty

theorem move_iterate_past (r : Regiment) (tx ty : ℚ)
    (h : ¬(r.x = tx ∧ r.y = ty)) (m : ℕ) :
    Regiment.updateTick^[TurnSimulator.TICKS_PER_TURN + m]
      (r.setOrder (some (Order.move tx ty))) = moveFinishedState r tx ty := by
  rw [Nat.add_comm, Function.iterate_add_apply, move_iterate_100 r tx ty h]
  exact Regiment.updateTick_iterate_of_none rfl m

/-- C2: confirmed. For every Regiment at (x, y) given a Move order whose
target (tx, ty) differs from (x, y), after exactly ticksPerTurn = 100
per-tick updates the position is exactly (tx, ty) — the snapping branch
eliminates any interpolation residue, so there is no overshoot — and the
order is cleared. -/
theorem move_reaches_target_exactly (r : Regiment) (tx ty : ℚ)
    (h : ¬(tx = r.x ∧ ty = r.y)) :
    (Regiment.updateTick^[TurnSimulator.TICKS_PER_TURN]
        (r.setOrder (some (Order.move tx ty)))).x = tx ∧
    (Regiment.updateTick^[TurnSimulator.TICKS_PER_TURN]
        (r.setOrder (some (Order.move tx ty)))).y = ty ∧
    (Regiment.updateTick^[TurnSimulator.TICKS_PER_TURN]
        (r.setOrder (some (Order.move tx ty)))).order = none := by
  have h2 : ¬(r.x = tx ∧ r.y = ty) := fun hc => h ⟨hc.1.symm, hc.2.symm⟩
  rw [move_iterate_100 r tx ty h2]
  exact ⟨rfl, rfl, rfl⟩

/-- Witness for C2: the spec's end-to-end regiment at (2, 3) ordered to
Move to (10, 10) sits exactly on (10, 10) with no order after 100 ticks. -/
theorem move_reaches_target_exactly_witness :
    (Regiment.updateTick^[TurnSimulator.TICKS_PER_TURN]
        ((Regiment.create "w2" 2 3 Direction.NORTH).setOrder
          (some (Order.move 10 10)))).x = 10 ∧
    (Regiment.updateTick^[TurnSimulator.TICKS_PER_TURN]
        ((Regiment.create "w2" 2 3 Direction.NORTH).setOrder
          (some (Order.move 10 10)))).y = 10 ∧
    (Regiment.updateTick^[TurnSimulator.TICKS_PER_TURN]
        ((Regiment.create "w2" 2 3 Direction.NORTH).setOrder
          (some (Order.move 10 10)))).order = none :=
  move_reaches_target_exactly (Regiment.create "w2" 2 3 Direction.NORTH)
    10 10 (by norm_num [Regiment.create])

theorem sqrt_scaled_dist (A B t : ℝ) (ht : 0 ≤ t) :
    Real.sqrt ((A * t) ^ 2 + (B * t) ^ 2) = Real.sqrt (A ^ 2 + B ^ 2) * t := by
  rw [show (A * t) ^ 2 + (B * t) ^ 2 = (A ^ 2 + B ^ 2) * t ^ 2 from by ring,
    Real.sqrt_mul (by positivity), Real.sqrt_sq ht]

theorem dist_moveInProgress (r : Regiment) (tx ty : ℚ) (k : ℕ)
    (hk : k ≤ 100) :
    distToTarget (moveInProgressState r tx ty k) tx ty =
      distToTarget r tx ty * (1 - (k : ℝ) / 100) := by
  have hkR : (k : ℝ) ≤ 100 := by exact_mod_cast hk
  have ht : (0 : ℝ) ≤ 1 - (k : ℝ) / 100 := by linarith
  unfold distToTarget
  simp only [moveInProgressState, TurnSimulator.TICKS_PER_TURN, Nat.cast_ofNat]
  rw [← sqrt_scaled_dist (((r.x - tx : ℚ)) : ℝ) (((r.y - ty : ℚ)) : ℝ)
    (1 - (k : ℝ) / 100) ht]
  congr 1
  push_cast
  ring

theorem dist_moveFinished (r : Regiment) (tx ty : ℚ) :
    distToTarget (moveFinishedState r tx ty) tx ty = 0 := by
  simp [distToTarget, moveFinishedState]

/-- C8: confirmed. For a Move order with target distinct from the start, the
Euclidean distance from the regiment's position to the target never
increases from one per-tick update to the next, and is exactly 0 at tick
ticksPerTurn = 100. -/
theorem move_distance_monotone (r : Regiment) (tx ty : ℚ)
    (h : ¬(tx = r.x ∧ ty = r.y)) (k : ℕ) :
    distToTarget (Regiment.updateTick^[k + 1]
        (r.setOrder (some (Order.move tx ty)))) tx ty ≤
      distToTarget (Regiment.updateTick^[k]
        (r.setOrder (some (Order.move tx ty)))) tx ty ∧
    distToTarget (Regiment.updateTick^[TurnSimulator.TICKS_PER_TURN]
        (r.setOrder (some (Order.move tx ty)))) tx ty = 0 := by
  have h2 : ¬(r.x = tx ∧ r.y = ty) := fun hc => h ⟨hc.1.symm, hc.2.symm⟩
  have hzero : distToTarget (Regiment.updateTick^[TurnSimulator.TICKS_PER_TURN]
      (r.setOrder (some (Order.move tx ty)))) tx ty = 0 := by
    rw [move_iterate_100 r tx ty h2, dist_moveFinished]
  refine ⟨?_, hzero⟩
  have hC : 0 ≤ distToTarget r tx ty := Real.sqrt_nonneg _
  rcases Nat.lt_or_ge k 100 with hk | hk
  · rcases Nat.eq_zero_or_pos k with hk0 | hk1
    · subst hk0
      rw [show (0 : ℕ) + 1 = 1 from rfl, Function.iterate_one,
        Function.iterate_zero_apply,
        updateTick_move_first r tx ty h2,
        dist_moveInProgress r tx ty 1 (by norm_num)]
      have he : distToTarget (r.setOrder (some (Order.move tx ty))) tx ty =
          distToTarget r tx ty := rfl
      rw [he]
      nlinarith [hC]
    · rcases Nat.lt_or_ge (k + 1) 100 with hks | hks
      · rw [move_iterate_char r tx ty h2 k hk1 hk,
          move_iterate_char r tx ty h2 (k + 1) (by omega) hks,
          dist_moveInProgress r tx ty k (by omega),
          dist_moveInProgress r tx ty (k + 1) (by omega)]
        push_cast
        nlinarith [hC]
      · have hk99 : k = 99 := by omega
        subst hk99
        rw [show (99 : ℕ) + 1 = TurnSimulator.TICKS_PER_TURN from rfl, hzero,
          move_iterate_char r tx ty h2 99 (by norm_num)
            (by norm_num [TurnSimulator.TICKS_PER_TURN])]
        exact Real.sqrt_nonneg _
  · obtain ⟨m, rfl⟩ : ∃ m, k = TurnSimulator.TICKS_PER_TURN + m :=
      ⟨k - 100, by simp only [TurnSimulator.TICKS_PER_TURN]; omega⟩
    rw [show TurnSimulator.TICKS_PER_TURN + m + 1 =
        TurnSimulator.TICKS_PER_TURN + (m + 1) from by omega,
      move_iterate_past r tx ty h2 (m + 1), move_iterate_past r tx ty h2 m]

/-- Witness for C8: a regiment at the origin moving to (3, 4); the distance
after tick 6 is at most the distance after tick 5, and the distance at tick
100 is exactly 0. -/
theorem move_distance_monotone_witness :
    distToTarget (Regiment.updateTick^[5 + 1]
        ((Regiment.create "w8" 0 0 Direction.NORTH).setOrder
          (some (Order.move 3 4)))) 3 4 ≤
      distToTarget (Regiment.updateTick^[5]
        ((Regiment.create "w8" 0 0 Direction.NORTH).setOrder
          (some (Order.move 3 4)))) 3 4 ∧
    distToTarget (Regiment.updateTick^[TurnSimulator.TICKS_PER_TURN]
        ((Regiment.create "w8" 0 0 Direction.NORTH).setOrder
          (some (Order.move 3 4)))) 3 4 = 0 :=
  move_distance_monotone (Regiment.create "w8" 0 0 Direction.NORTH) 3 4
    (by norm_num [Regiment.create]) 5

/-! ## Theorems: direction classification -/

theorem atan2_zero_one : atan2 0 1 = 0 := by
  unfold atan2
  rw [if_pos (by norm_num)]
  norm_num

theorem atan2_one_zero : atan2 1 0 = Real.pi / 2 := by
  unfold atan2
  rw [if_neg (by norm_num), if_neg (by norm_num), if_neg (by norm_num),
    if_pos (by norm_num)]

theorem atan2_zero_neg_one : atan2 0 (-1) = Real.pi := by
  unfold atan2
  rw [if_neg (by norm_num), if_pos (by norm_num)]
  norm_num

theorem atan2_neg_one_zero : atan2 (-1) 0 = -(Real.pi / 2) := by
  unfold atan2
  rw [if_neg (by norm_num), if_neg (by norm_num), if_neg (by norm_num),
    if_neg (by norm_num), if_pos (by norm_num)]

theorem atan2_one_one : atan2 1 1 = Real.pi / 4 := by
  unfold atan2
  rw [if_pos (by norm_num)]
  norm_num [Real.arctan_one]

theorem degrees_east : degreesFromDelta 1 0 = 0 := by
  simp only [degreesFromDelta]
  push_cast
  rw [atan2_zero_one, zero_mul, if_neg (by norm_num)]

theorem degrees_south : degreesFromDelta 0 1 = 90 := by
  simp only [degreesFromDelta]
  push_cast
  rw [atan2_one_zero]
  have hp : Real.pi ≠ 0 := Real.pi_ne_zero
  rw [show Real.pi / 2 * (180 / Real.pi) = 90 from by field_simp; ring]
  rw [if_neg (by norm_num)]

theorem degrees_west : degreesFromDelta (-1) 0 = 180 := by
  simp only [degreesFromDelta]
  push_cast
  rw [atan2_zero_neg_one]
  have hp : Real.pi ≠ 0 := Real.pi_ne_zero
  rw [show Real.pi * (180 / Real.pi) = 180 from by field_simp]
  rw [if_neg (by norm_num)]

theorem degrees_north : degreesFromDelta 0 (-1) = 270 := by
  simp only [degreesFromDelta]
  push_cast
  rw [atan2_neg_one_zero]
  have hp : Real.pi ≠ 0 := Real.pi_ne_zero
  rw [show -(Real.pi / 2) * (180 / Real.pi) = -90 from by field_simp; ring]
  rw [if_pos (by norm_num)]
  norm_num

theorem degrees_southeast : degreesFromDelta 1 1 = 45 := by
  simp only [degreesFromDelta]
  push_cast
  rw [atan2_one_one]
  have hp : Real.pi ≠ 0 := Real.pi_ne_zero
  rw [show Real.pi / 4 * (180 / Real.pi) = 45 from by field_simp; ring]
  rw [if_neg (by norm_num)]

theorem directionFromDegrees_0 : directionFromDegrees 0 = Direction.EAST := by
  unfold directionFromDegrees
  rw [if_pos (by norm_num)]

theorem directionFromDegrees_90 :
    directionFromDegrees 90 = Direction.SOUTH := by
  unfold directionFromDegrees
  rw [if_neg (by norm_num), if_neg (by norm_num), if_pos (by norm_num)]

theorem directionFromDegrees_180 :
    directionFromDegrees 180 = Direction.WEST := by
  unfold directionFromDegrees
  rw [if_neg (by norm_num), if_neg (by norm_num), if_neg (by norm_num),
    if_neg (by norm_num), if_pos (by norm_num)]

theorem directionFromDegrees_270 :
    directionFromDegrees 270 = Direction.NORTH := by
  unfold directionFromDegrees
  rw [if_neg (by norm_num), if_neg (by norm_num), if_neg (by norm_num),
    if_neg (by norm_num), if_neg (by norm_num), if_neg (by norm_num),
    if_pos (by norm_num)]

theorem directionFromDegrees_45 :
    directionFromDegrees 45 = Direction.SOUTHEAST := by
  unfold directionFromDegrees
  rw [if_neg (by norm_num), if_pos (by norm_num)]

/-- C4: confirmed. calculateDirectionFromDelta maps the canonical delta
vectors as documented: (1,0) to EAST, (0,1) to SOUTH, (-1,0) to WEST,
(0,-1) to NORTH, (1,1) to SOUTHEAST, and (0,0) to NORTH, the documented
default for zero movement. -/
theorem direction_classification_canonical :
    calculateDirectionFromDelta 1 0 = Direction.EAST ∧
    calculateDirectionFromDelta 0 1 = Direction.SOUTH ∧
    calculateDirectionFromDelta (-1) 0 = Direction.WEST ∧
    calculateDirectionFromDelta 0 (-1) = Direction.NORTH ∧
    calculateDirectionFromDelta 1 1 = Direction.SOUTHEAST ∧
    calculateDirectionFromDelta 0 0 = Direction.NORTH := by
  refine ⟨?_, ?_, ?_, ?_, ?_, ?_⟩
  · unfold calculateDirectionFromDelta
    rw [if_neg (by norm_num), degrees_east, directionFromDegrees_0]
  · unfold calculateDirectionFromDelta
    rw [if_neg (by norm_num), degrees_south, directionFromDegrees_90]
  · unfold calculateDirectionFromDelta
    rw [if_neg (by norm_num), degrees_west, directionFromDegrees_180]
  · unfold calculateDirectionFromDelta
    rw [if_neg (by norm_num), degrees_north, directionFromDegrees_270]
  · unfold calculateDirectionFromDelta
    rw [if_neg (by norm_num), degrees_southeast, directionFromDegrees_45]
  · unfold calculateDirectionFromDelta
    rw [if_pos (by norm_num)]

end LineTactics
